import Mathlib

/-!
Verification of the collection-and-curation pipeline of the aibyz-dataset
repository (`codes/`): a shallow embedding of the storage layer
(`common/storage.py`), the HTTP retry client (`common/http.py`), the three
chain collectors (`collectors/eth2.py`, `collectors/cosmos.py`,
`collectors/polkadot.py`), the curator (`curators/common.py`) and the
trust-signal feature builder (`features/build_trust_signals_daily.py`),
together with theorems settling the frozen claims about them.

Modelling conventions:
* pandas cell values are modelled by `Cell` (null / string / int / rational);
  Python floats are modelled as rationals, since the pipeline only copies and
  compares them.
* A row dictionary (`model_dump()` output, or one record of a DataFrame) is a
  key/value list `Row`; `rowGet` is dictionary lookup defaulting to null,
  which matches the DataFrame view where a missing key is a null cell.
* A partition directory is a list of files `Partition`; a file has a base
  name, an extension (the part after the final dot, which is what the
  `*.parquet` / `*.csv` globs inspect) and abstract contents.
* Network requests are oracles (`Int → Option payload`): `none` stands for an
  item whose fetch or row mapping raised and was swallowed by the per-item
  `except` block.
* Python exceptions that propagate to the caller are `Except.error`.
-/

namespace Aibyz

/-- A pandas / JSON scalar cell value. `null` models Python `None` / NaN. -/
inductive Cell where
  | null
  | str (s : String)
  | int (n : Int)
  | num (q : ℚ)
deriving DecidableEq, Repr

/-- One row: a key/value dictionary, as produced by `model_dump()` and as
stored in a DataFrame record. -/
abbrev Row := List (String × Cell)

/-- Dictionary lookup in a row; a missing key reads as a null cell (the
DataFrame view of a record that lacks a column other records have). -/
def rowGet : Row → String → Cell
  | [], _ => .null
  | (k, v) :: rest, c => if k = c then v else rowGet rest c

/-- The `(chain_id, network, key-field)` identity tuple of a row. -/
def keyTuple (kf : String) (r : Row) : Cell × Cell × Cell :=
  (rowGet r "chain_id", rowGet r "network", rowGet r kf)

/-- Provenance record, mirroring the `Provenance` dataclass of
`common/provenance.py`. -/
structure Provenance where
  source : String
  api_version : String
  collector : String
  chain_id : String
  network : String
  dataset : String
  rows : Nat
  note : Option String
  schema_version : Option String
deriving DecidableEq, Repr

/-- Abstract contents of one file inside a partition directory. -/
inductive FileContent where
  | emptyMarker
  | parquetFile (rows : List Row)
  | csvFile (rows : List Row)
  | provFile (payload : Provenance)
deriving DecidableEq, Repr

/-- A file of a partition directory: base name, extension (the part after the
final dot, which is what suffix globbing inspects) and contents. -/
structure PartFile where
  base : String
  ext : String
  content : FileContent
deriving DecidableEq, Repr

/-- A partition directory: its list of files. -/
abbrev Partition := List PartFile

/-- Write a file into a directory, overwriting any prior file of that name. -/
def putFile (part : Partition) (base ext : String) (content : FileContent) : Partition :=
  part.filter (fun f => !(f.base == base && f.ext == ext)) ++ [⟨base, ext, content⟩]

/-- The partition key built by `part_path` in `common/storage.py`
(`root/layer/table/chain_id=../network=../date=..`); the directory-creating
side effect is idempotent and not modelled. -/
structure PartKey where
  root : String
  layer : String
  table : String
  chain_id : String
  network : String
  date : String
deriving DecidableEq, Repr

/-- `part_path` of `common/storage.py`: the canonical partition key. -/
def part_path (root layer table chain_id network date : String) : PartKey :=
  ⟨root, layer, table, chain_id, network, date⟩

/-- `write_rows` of `common/storage.py`. Zero rows: write a `filename.empty`
sentinel and return. Otherwise serialize as csv or parquet; an unsupported
format raises `ValueError` (modelled as `Except.error` with the source's
message). -/
def write_rows (rows : List Row) (outdir : Partition) (fmt : String) (filename : String) :
    Except String Partition :=
  if rows.isEmpty then
    .ok (putFile outdir filename "empty" .emptyMarker)
  else if fmt = "csv" then
    .ok (putFile outdir filename "csv" (.csvFile rows))
  else if fmt = "parquet" then
    .ok (putFile outdir filename "parquet" (.parquetFile rows))
  else
    .error ("Unsupported output format: " ++ fmt)

/-- `write_provenance` of `common/storage.py`: write the fixed-name JSON
sidecar, overwriting prior runs. -/
def write_provenance (outdir : Partition) (payload : Provenance) : Partition :=
  putFile outdir "_PROVENANCE" "json" (.provFile payload)

/-- Reading one globbed file in `read_any`: a `.parquet` file is read with
`read_parquet`, a `.csv` file with `read_csv`; contents that do not match the
extension model an unreadable fragment (`none`, skipped). -/
def parseFile (f : PartFile) : Option (List Row) :=
  match f.ext, f.content with
  | "parquet", .parquetFile rows => some rows
  | "csv", .csvFile rows => some rows
  | _, _ => none

/-- `read_any` of `common/storage.py`, restricted to the partition directory
it scans: glob `*.parquet` then `*.csv`, parse each, skip unreadable
fragments, concatenate; no files yields an empty row set. -/
def read_any (part : Partition) : List Row :=
  let files := part.filter (fun f => f.ext == "parquet") ++ part.filter (fun f => f.ext == "csv")
  (files.filterMap parseFile).flatten

/-! ## Collector window resolution and dispatch

All three `collect` entry points share the same literal shape
(`eth2.py:97-114`, `cosmos.py:88-103`, `polkadot.py:95-109`): if either
explicit bound is `None`, query the head and derive a lookback window,
otherwise take the bounds literally; then raise `ValueError` when
`end < start`; then dispatch each requested dataset in a fixed order. -/

/-- Python `int(x or dflt)` on an optional integer: `None` and `0` are falsy
and select the default. -/
def pyIntOr (x : Option Int) (dflt : Int) : Int :=
  match x with
  | none => dflt
  | some v => if v = 0 then dflt else v

/-- Result of the window-resolution prelude of `collect`: whether the head
was queried over the network, and the `start`/`stop` bounds obtained. -/
structure ResolvedWindow where
  headQueried : Bool
  start : Int
  stop : Int
deriving DecidableEq, Repr

/-- The window-resolution prelude shared by the three collectors.
`minIndex` is the chain floor (`max(0, ...)` for eth2, `max(1, ...)` for
cosmos and polkadot) and `dfltLookback` the chain default (512/2000/1024). -/
def resolveWindow (minIndex dfltLookback head : Int)
    (lookback startArg stopArg : Option Int) : ResolvedWindow :=
  match startArg, stopArg with
  | some s, some e => ⟨false, s, e⟩
  | _, _ => ⟨true, max minIndex (head - pyIntOr lookback dfltLookback + 1), head⟩

/-- The `ValueError` raised when `end < start`. -/
inductive CollectError where
  | invalidRange (start stop : Int)
deriving DecidableEq, Repr

/-- The datasets a collector actually dispatches, in source order: each
`if "x" in datasets:` guard of `collect`. -/
def processedOf (dispatch datasets : List String) : List String :=
  dispatch.filter (fun d => datasets.contains d)

/-- The shared skeleton of `collect`: resolve the window, raise on an
inverted range, otherwise run the dispatched datasets. The returned `Bool`
records whether the head was fetched over the network; the list on success
names the dataset writes performed. -/
def collectRun (minIndex dfltLookback : Int) (dispatch : List String) (head : Int)
    (datasets : List String) (startArg stopArg lookback : Option Int) :
    Bool × Except CollectError (List String) :=
  let w := resolveWindow minIndex dfltLookback head lookback startArg stopArg
  (w.headQueried,
    if w.stop < w.start then .error (.invalidRange w.start w.stop)
    else .ok (processedOf dispatch datasets))

/-- Dataset dispatch order of `Eth2Collector.collect` / `CosmosCollector.collect`. -/
def restDatasets : List String := ["blocks", "validators", "attestations", "penalties"]

/-- Dataset dispatch order of `PolkadotCollector.collect`; there is no
`attestations` branch. -/
def polkadotDatasets : List String := ["blocks", "validators", "penalties"]

/-- `Eth2Collector.collect` (floor 0, default lookback 512). -/
def eth2_collect : Int → List String → Option Int → Option Int → Option Int →
    Bool × Except CollectError (List String) :=
  collectRun 0 512 restDatasets

/-- `CosmosCollector.collect` (floor 1, default lookback 2000). -/
def cosmos_collect : Int → List String → Option Int → Option Int → Option Int →
    Bool × Except CollectError (List String) :=
  collectRun 1 2000 restDatasets

/-- `PolkadotCollector.collect` (floor 1, default lookback 1024). -/
def polkadot_collect : Int → List String → Option Int → Option Int → Option Int →
    Bool × Except CollectError (List String) :=
  collectRun 1 1024 polkadotDatasets

/-- The inclusive window `range(start, end + 1)` iterated by the per-height
dataset loops. -/
def windowList (start stop : Int) : List Int :=
  (List.range (stop + 1 - start).toNat).map (fun i => start + Int.ofNat i)

/-! ## Block collection (`Eth2Collector._blocks`, `CosmosCollector._blocks`)

`fetch` is the oracle for the whole `try` body of `fetch_block` (network GET
plus `Block(...).model_dump()`): `none` models an item whose fetch raised
after retries and was caught and logged. `order` is the order in which item
results are consumed: the window order in the sequential branch, and any
permutation of it under `as_completed` in the concurrent branch. -/

/-- The row list accumulated by `_blocks`: failed items are omitted, the
others appended in consumption order. -/
def blocksRows (fetch : Int → Option Row) (order : List Int) : List Row :=
  order.filterMap fetch

/-- The tail of `_blocks`: write the rows with `write_rows` and follow with a
provenance record whose `rows` field is `len(rows)`. -/
def blocksRun (fetch : Int → Option Row) (order : List Int) (outdir : Partition)
    (fmt source api_version collector chain_id network : String) :
    Except String (Partition × Provenance) :=
  let rows := blocksRows fetch order
  match write_rows rows outdir fmt "part-000" with
  | .error e => .error e
  | .ok p =>
      let prov : Provenance :=
        ⟨source, api_version, collector, chain_id, network, "blocks", rows.length, none, none⟩
      .ok (write_provenance p prov, prov)

/-! ## Polkadot collector specifics (`collectors/polkadot.py`) -/

/-- Constructor state of `PolkadotCollector.__init__`: the configuration keys
it reads. `max_workers` is never read — the substrate session is
single-threaded by construction. -/
structure PolkadotCollectorState where
  chain_id : String
  network : String
  rpc : String
  format : String
  root : String
deriving DecidableEq, Repr

/-- `PolkadotCollector.__init__` over the configuration dictionary (a key
lookup function), with the source defaults. -/
def polkadot_init (cfg : String → Option String) : PolkadotCollectorState :=
  { chain_id := "polkadot"
    network := (cfg "network").getD "mainnet"
    rpc := (cfg "rpc").getD "wss://rpc.polkadot.io"
    format := (cfg "format").getD "parquet"
    root := (cfg "root").getD "data" }

/-- Override one key of a configuration dictionary. -/
def cfgSet (cfg : String → Option String) (k v : String) : String → Option String :=
  fun q => if q = k then some v else cfg q

/-- Per-height substrate payload used by `PolkadotCollector._blocks` once the
hash and block lookups succeeded. -/
structure PolkadotBlockData where
  block_hash : String
  parent_hash : String
  timestamp_utc : Option Int
deriving DecidableEq, Repr

/-- Optional integer as a cell. -/
def optIntCell : Option Int → Cell
  | none => .null
  | some n => .int n

/-- The `Block(...).model_dump()` row built by `PolkadotCollector._blocks`
for height `h` (field order of `common/schemas.py`). -/
def polkadotBlockRow (chain_id network : String) (h : Int) (pd : PolkadotBlockData) : Row :=
  [("chain_id", .str chain_id), ("network", .str network), ("height_or_slot", .int h),
   ("epoch", .null), ("block_hash", .str pd.block_hash), ("parent_hash", .str pd.parent_hash),
   ("proposer_index", .null), ("proposer_address", .null),
   ("timestamp_utc", optIntCell pd.timestamp_utc)]

/-- `PolkadotCollector._blocks` row accumulation: a plain `for` loop over the
window — strictly sequential, no worker pool exists in this collector. The
oracle `ev h` covers `get_block_hash` / `get_block` / extrinsic scan for one
height; `none` models a `None` hash (skipped) or a caught exception. -/
def polkadot_blocks_rows (ev : Int → Option PolkadotBlockData) (chain_id network : String)
    (start stop : Int) : List Row :=
  (windowList start stop).filterMap (fun h => (ev h).map (polkadotBlockRow chain_id network h))

/-! ## HTTP retry client (`common/http.py`)

`get_json` attempts the request inside `while True`; each failure bumps
`attempt`, re-raises once `attempt >= 5`, otherwise sleeps
`delay + uniform(0, delay)` and doubles `delay` capped at 8. The oracle
`attemptRes i` is the outcome of the `i`-th request (0-based); `jit i` is the
`uniform(0, delay)` draw of the `i`-th failure scaled to `[0, 1]`. The result
carries the value or final exception, the list of sleeps performed, and the
number of attempts made. -/

def get_json_go {ε α : Type} (attemptRes : Nat → Except ε α) (jit : Nat → ℚ)
    (i : Nat) (delay : ℚ) (sleeps : List ℚ) : Except ε α × List ℚ × Nat :=
  match attemptRes i with
  | .ok v => (.ok v, sleeps.reverse, i + 1)
  | .error e =>
      if 5 ≤ i + 1 then (.error e, sleeps.reverse, i + 1)
      else get_json_go attemptRes jit (i + 1) (min (delay * 2) 8) ((delay + jit i * delay) :: sleeps)
termination_by 5 - i
decreasing_by omega

/-- `get_json` of `common/http.py`: the retry loop entered with `attempt = 0`
and `delay = _INITIAL_DELAY = 0.5`. -/
def get_json {ε α : Type} (attemptRes : Nat → Except ε α) (jit : Nat → ℚ) :
    Except ε α × List ℚ × Nat :=
  get_json_go attemptRes jit 0 (1 / 2) []

/-! ## Curator (`curators/common.py`) -/

/-- pandas `drop_duplicates` keeps the first occurrence of each distinct row;
`seen` accumulates the rows already kept. -/
def dropDupAux {α : Type} [DecidableEq α] (seen : List α) : List α → List α
  | [] => []
  | a :: as => if a ∈ seen then dropDupAux seen as else a :: dropDupAux (a :: seen) as

/-- pandas `DataFrame.drop_duplicates()` (keep first). -/
def drop_duplicates {α : Type} [DecidableEq α] (l : List α) : List α :=
  dropDupAux [] l

/-- Projection of one record onto the fixed curated column set: `raw[c] = None`
for each missing column followed by `raw[cols]`. A column the record lacks
reads as the null sentinel. -/
def projectRow (cols : List String) (r : Row) : Row :=
  cols.map (fun c => (c, rowGet r c))

/-- One table of `Curator.curate`: project every record onto the canonical
columns, then `drop_duplicates`. -/
def curateTable (cols : List String) (raw : List Row) : List Row :=
  drop_duplicates (raw.map (projectRow cols))

/-- Canonical curated columns of `block_core`. -/
def blockCoreCols : List String :=
  ["chain_id", "network", "height_or_slot", "epoch", "block_hash", "parent_hash",
   "proposer_index", "proposer_address", "timestamp_utc"]

/-- Canonical curated columns of `validator_core`. -/
def validatorCoreCols : List String :=
  ["chain_id", "network", "snapshot_ts", "validator_id", "status", "balance",
   "effective_balance", "slashed", "withdrawal_address"]

/-- Canonical curated columns of `attestation_core`. -/
def attestationCoreCols : List String :=
  ["chain_id", "network", "height_or_slot", "epoch", "committee_index", "head_block_root",
   "source_epoch", "target_epoch"]

/-- Canonical curated columns of `penalty_core`. -/
def penaltyCoreCols : List String :=
  ["chain_id", "network", "height_or_slot", "validator_id", "penalty_type", "value", "meta_json"]

/-- `Curator._read_any`: take the first globbed file of the partition
(`files[0]`, parquet files before csv files) and read it by extension; no
file yields an empty frame; an unreadable first file raises. -/
def curator_read_any (part : Partition) : Except String (List Row) :=
  let files := part.filter (fun f => f.ext == "parquet") ++ part.filter (fun f => f.ext == "csv")
  match files with
  | [] => .ok []
  | f :: _ =>
      match parseFile f with
      | some rows => .ok rows
      | none => .error "unreadable first fragment"

/-- `Curator.curate` for one ingest date, given the four raw tables read by
`Curator._read_any` (each the empty list when the raw partition is absent or
empty). The result is the list of curated writes performed: the partition key
passed to `part_path` and the rows passed to `write_rows`. A raw table that
is empty is skipped entirely. -/
def curate (root chain_id network date : String)
    (rawBlocks rawVals rawAtts rawPen : List Row) : List (PartKey × List Row) :=
  (if rawBlocks.isEmpty then []
   else [(part_path root "curated" "block_core" chain_id network date,
          curateTable blockCoreCols rawBlocks)]) ++
  (if rawVals.isEmpty then []
   else [(part_path root "curated" "validator_core" chain_id network date,
          curateTable validatorCoreCols rawVals)]) ++
  (if rawAtts.isEmpty then []
   else [(part_path root "curated" "attestation_core" chain_id network date,
          curateTable attestationCoreCols rawAtts)]) ++
  (if rawPen.isEmpty then []
   else [(part_path root "curated" "penalty_core" chain_id network date,
          curateTable penaltyCoreCols rawPen)])

/-! ## Trust signals (`features/build_trust_signals_daily.py`) -/

/-- Whether the DataFrame built from these records has the column `c`
(pandas: any record carries the key). -/
def hasColumn (rows : List Row) (c : String) : Bool :=
  rows.any (fun r => r.any (fun kv => kv.1 == c))

/-- The count pandas `pc.groupby("validator_id")["penalty_type"].count()`
assigns to the group `vid`: matching rows whose `penalty_type` is non-null
(`count` ignores NA values). -/
def penaltyTypeCount (pc : List Row) (vid : Cell) : Nat :=
  (pc.filter (fun r =>
    decide (rowGet r "validator_id" = vid ∧ rowGet r "penalty_type" ≠ Cell.null))).length

/-- `slash_counts.get(vid, 0)`: the dictionary stays empty when the penalty
table is empty or lacks a `validator_id` column, a null `vid` is never a
group key (`groupby` drops NA keys), and otherwise the group count is looked
up, defaulting to 0. -/
def slash_counts_get (pc : List Row) (vid : Cell) : Nat :=
  if pc = [] ∨ hasColumn pc "validator_id" = false ∨ vid = Cell.null then 0
  else penaltyTypeCount pc vid

/-- The expression `None if pd.isna(eff_bal) else float(eff_bal or 0.0)`.
`pyFloatStr` models the Python `float` primitive on strings (`none` = raises
`ValueError`); the empty string is falsy and yields `float(0.0)`. -/
def trust_score_v0 (pyFloatStr : String → Option ℚ) : Cell → Except String Cell
  | .null => .ok .null
  | .int n => .ok (.num (if n = 0 then (0 : ℚ) else (n : ℚ)))
  | .num q => .ok (.num (if q = 0 then 0 else q))
  | .str s =>
      if s = "" then .ok (.num 0)
      else
        match pyFloatStr s with
        | some q => .ok (.num q)
        | none => .error ("could not convert string to float: " ++ s)

/-- The `for _, r in vc.iterrows()` loop body of `build_trust_signals_daily`:
build one output row per validator record; a failing float conversion
propagates and aborts the build. -/
def buildTrustRows (pyFloatStr : String → Option ℚ) (chain_id network date : String)
    (pc : List Row) : List Row → Except String (List Row)
  | [] => .ok []
  | r :: rest =>
      match trust_score_v0 pyFloatStr (rowGet r "effective_balance") with
      | .error e => .error e
      | .ok ts =>
          match buildTrustRows pyFloatStr chain_id network date pc rest with
          | .error e => .error e
          | .ok rows =>
              .ok ([("chain_id", Cell.str chain_id), ("network", Cell.str network),
                    ("date", Cell.str date), ("validator_id", rowGet r "validator_id"),
                    ("trust_score_v0", ts),
                    ("penalty_count_v0", Cell.int (slash_counts_get pc (rowGet r "validator_id")))]
                   :: rows)

/-- `build_trust_signals_daily` of `features/build_trust_signals_daily.py`,
up to the final `write_rows`: an empty curated validator table emits no rows;
otherwise one output row per validator record. -/
def build_trust_signals_daily (pyFloatStr : String → Option ℚ)
    (chain_id network date : String) (vc pc : List Row) : Except String (List Row) :=
  if vc.isEmpty then .ok []
  else buildTrustRows pyFloatStr chain_id network date pc vc

/-! ## Specification predicates used by the claim theorems -/

/-- What `Curator.curate` guarantees for one raw table: an empty raw table
produces no curated write for that table; a non-empty one produces exactly
the projected, deduplicated rows under the curated-layer partition key. -/
def curatedTableSpec (out : List (PartKey × List Row)) (root chain_id network date tbl : String)
    (cols : List String) (raw : List Row) : Prop :=
  (raw = [] → ∀ e ∈ out, e.1 ≠ part_path root "curated" tbl chain_id network date) ∧
  (raw ≠ [] →
    (part_path root "curated" tbl chain_id network date, curateTable cols raw) ∈ out ∧
    (curateTable cols raw).Nodup ∧
    (∀ r ∈ curateTable cols raw, r.map Prod.fst = cols) ∧
    (∀ r ∈ raw, projectRow cols r ∈ curateTable cols raw) ∧
    (∀ r ∈ curateTable cols raw, ∃ s, s ∈ raw ∧ r = projectRow cols s))

/-- Whether a cell is numeric or null (the shapes `effective_balance` takes in
every curated validator table the pipeline itself writes). -/
def cellNumOrNull : Cell → Bool
  | .null => true
  | .int _ => true
  | .num _ => true
  | .str _ => false

/-- The numeric copy `float(x)` performed by the trust score on a non-string
cell: null stays null, numbers are copied. -/
def numCopy : Cell → Cell
  | .null => .null
  | .int n => .num n
  | .num q => .num q
  | .str s => .str s

/-- The output record built by the trust-signal loop for one validator record
whose effective balance is numeric or null. -/
def trustOutRow (chain_id network date : String) (pc : List Row) (r : Row) : Row :=
  [("chain_id", Cell.str chain_id), ("network", Cell.str network),
   ("date", Cell.str date), ("validator_id", rowGet r "validator_id"),
   ("trust_score_v0", numCopy (rowGet r "effective_balance")),
   ("penalty_count_v0", Cell.int (slash_counts_get pc (rowGet r "validator_id")))]

/-- A concrete fetch oracle over the window `[100, 104]` in which exactly the
item at slot 102 fails after retries (the example scenario of the spec). -/
def exampleFetch102 : Int → Option Row :=
  fun h => if h = 102 then none else some [("height_or_slot", Cell.int h)]

/-! ## General lemmas -/

theorem mem_dropDupAux {α : Type} [DecidableEq α] :
    ∀ (l seen : List α) (b : α), b ∈ dropDupAux seen l ↔ b ∈ l ∧ b ∉ seen := by
  intro l
  induction l with
  | nil => intro seen b; simp [dropDupAux]
  | cons a as ih =>
      intro seen b
      by_cases ha : a ∈ seen
      · rw [dropDupAux, if_pos ha, ih]
        constructor
        · rintro ⟨h1, h2⟩; exact ⟨List.mem_cons_of_mem _ h1, h2⟩
        · rintro ⟨h1, h2⟩
          rcases List.mem_cons.1 h1 with rfl | h1
          · exact absurd ha h2
          · exact ⟨h1, h2⟩
      · rw [dropDupAux, if_neg ha]
        constructor
        · intro hmem
          rcases List.mem_cons.1 hmem with rfl | hmem
          · exact ⟨List.mem_cons_self _ _, ha⟩
          · obtain ⟨h1, h2⟩ := (ih (a :: seen) b).1 hmem
            refine ⟨List.mem_cons_of_mem _ h1, fun hb => h2 (List.mem_cons_of_mem _ hb)⟩
        · rintro ⟨h1, h2⟩
          rcases List.mem_cons.1 h1 with rfl | h1
          · exact List.mem_cons_self _ _
          · by_cases hba : b = a
            · subst hba; exact List.mem_cons_self _ _
            · refine List.mem_cons_of_mem _ ((ih (a :: seen) b).2 ⟨h1, ?_⟩)
              intro hb
              rcases List.mem_cons.1 hb with h | h
              · exact hba h
              · exact h2 h

theorem nodup_dropDupAux {α : Type} [DecidableEq α] :
    ∀ (l seen : List α), (dropDupAux seen l).Nodup := by
  intro l
  induction l with
  | nil => intro seen; simp [dropDupAux]
  | cons a as ih =>
      intro seen
      by_cases ha : a ∈ seen
      · rw [dropDupAux, if_pos ha]; exact ih seen
      · rw [dropDupAux, if_neg ha]
        refine List.nodup_cons.2 ⟨fun hmem => ?_, ih (a :: seen)⟩
        exact ((mem_dropDupAux as (a :: seen) a).1 hmem).2 (List.mem_cons_self _ _)

theorem mem_drop_duplicates {α : Type} [DecidableEq α] (l : List α) (b : α) :
    b ∈ drop_duplicates l ↔ b ∈ l := by
  rw [drop_duplicates, mem_dropDupAux]
  simp

theorem nodup_drop_duplicates {α : Type} [DecidableEq α] (l : List α) :
    (drop_duplicates l).Nodup :=
  nodup_dropDupAux l []

theorem projectRow_keys (cols : List String) (r : Row) :
    (projectRow cols r).map Prod.fst = cols := by
  induction cols with
  | nil => rfl
  | cons c rest ih => simp [projectRow] at ih ⊢; exact ih

theorem rowGet_projectRow (cols : List String) (r : Row) (c : String) (hc : c ∈ cols) :
    rowGet (projectRow cols r) c = rowGet r c := by
  induction cols with
  | nil => cases hc
  | cons c0 rest ih =>
      rw [projectRow, List.map_cons, rowGet]
      by_cases h : c0 = c
      · subst h; simp
      · rw [if_neg h]
        exact ih (by rcases List.mem_cons.1 hc with rfl | hmem; exact absurd rfl h; exact hmem)

theorem filterMap_length_add_none {α β : Type} (f : α → Option β) :
    ∀ l : List α,
      (l.filterMap f).length + (l.filter (fun a => (f a).isNone)).length = l.length := by
  intro l
  induction l with
  | nil => rfl
  | cons a as ih =>
      cases hfa : f a <;>
        simp [List.filterMap_cons, List.filter_cons, hfa] <;> omega

theorem windowList_pairwise (start stop : Int) :
    List.Pairwise (· < ·) (windowList start stop) := by
  simp only [windowList, List.pairwise_map]
  refine (List.pairwise_lt_range _).imp ?_
  intro a b hab
  exact add_lt_add_left (Int.ofNat_lt.2 hab) start

theorem write_rows_ok (rows : List Row) (outdir : Partition) (fmt filename : String)
    (hfmt : fmt = "parquet" ∨ fmt = "csv") :
    ∃ p, write_rows rows outdir fmt filename = .ok p := by
  cases rows <;> rcases hfmt with rfl | rfl <;> simp [write_rows]

/-! ## Claim theorems -/

/-- Claim C2: for every collector, an explicitly supplied window with both
bounds present and `end < start` makes `collect` raise the fatal
`ValueError` before performing any network call (the head is not queried),
and nothing is fetched or written (no dataset dispatch happens). -/
theorem collect_invalid_range_fatal (head : Int) (datasets : List String)
    (lookback : Option Int) (s e : Int) (hlt : e < s) :
    eth2_collect head datasets (some s) (some e) lookback
        = (false, .error (.invalidRange s e)) ∧
    cosmos_collect head datasets (some s) (some e) lookback
        = (false, .error (.invalidRange s e)) ∧
    polkadot_collect head datasets (some s) (some e) lookback
        = (false, .error (.invalidRange s e)) := by
  refine ⟨?_, ?_, ?_⟩ <;>
    simp [eth2_collect, cosmos_collect, polkadot_collect, collectRun, resolveWindow, hlt]

theorem collect_invalid_range_fatal_witness :
    eth2_collect 0 ["blocks"] (some 5) (some 3) none
        = (false, .error (.invalidRange 5 3)) ∧
    cosmos_collect 0 ["blocks"] (some 5) (some 3) none
        = (false, .error (.invalidRange 5 3)) ∧
    polkadot_collect 0 ["blocks"] (some 5) (some 3) none
        = (false, .error (.invalidRange 5 3)) :=
  collect_invalid_range_fatal 0 ["blocks"] none 5 3 (by decide)

/-- Claim C10: when exactly one explicit bound is supplied to `collect`, it
is silently ignored: the window is resolved from the head and the lookback
default exactly as if neither bound had been given, for all three
collectors. -/
theorem single_bound_ignored (head : Int) (datasets : List String)
    (lookback : Option Int) (s e : Int) :
    (eth2_collect head datasets (some s) none lookback
        = eth2_collect head datasets none none lookback ∧
     eth2_collect head datasets none (some e) lookback
        = eth2_collect head datasets none none lookback) ∧
    (cosmos_collect head datasets (some s) none lookback
        = cosmos_collect head datasets none none lookback ∧
     cosmos_collect head datasets none (some e) lookback
        = cosmos_collect head datasets none none lookback) ∧
    (polkadot_collect head datasets (some s) none lookback
        = polkadot_collect head datasets none none lookback ∧
     polkadot_collect head datasets none (some e) lookback
        = polkadot_collect head datasets none none lookback) :=
  ⟨⟨rfl, rfl⟩, ⟨rfl, rfl⟩, ⟨rfl, rfl⟩⟩

/-- Claim C3: the storage round trip. Writing zero rows creates only the
explicit `part-000.empty` marker (no data file), a subsequent read yields an
empty row set, and the partition differs from a never-created one (which has
no files); writing `N > 0` rows and reading the partition back reproduces
exactly the same rows, hence the same row count and the same list of
`(chain_id, network, key-field)` tuples, for both output formats. -/
theorem storage_round_trip (rows : List Row) (fmt : String)
    (hne : rows ≠ []) (hfmt : fmt = "parquet" ∨ fmt = "csv") :
    (∀ fmt2 : String,
        write_rows [] [] fmt2 "part-000" = .ok [⟨"part-000", "empty", .emptyMarker⟩] ∧
        read_any [⟨"part-000", "empty", .emptyMarker⟩] = [] ∧
        ([⟨"part-000", "empty", .emptyMarker⟩] : Partition) ≠ []) ∧
    ∃ p, write_rows rows [] fmt "part-000" = .ok p ∧
      read_any p = rows ∧
      (read_any p).length = rows.length ∧
      ∀ kf, (read_any p).map (keyTuple kf) = rows.map (keyTuple kf) := by
  constructor
  · intro fmt2
    refine ⟨rfl, rfl, by simp⟩
  · rcases hfmt with rfl | rfl
    · have hread : read_any [⟨"part-000", "parquet", .parquetFile rows⟩] = rows := by
        simp [read_any, parseFile]
      refine ⟨[⟨"part-000", "parquet", .parquetFile rows⟩], ?_, hread, by rw [hread],
        fun kf => by rw [hread]⟩
      cases rows with
      | nil => exact absurd rfl hne
      | cons a as => rfl
    · have hread : read_any [⟨"part-000", "csv", .csvFile rows⟩] = rows := by
        simp [read_any, parseFile]
      refine ⟨[⟨"part-000", "csv", .csvFile rows⟩], ?_, hread, by rw [hread],
        fun kf => by rw [hread]⟩
      cases rows with
      | nil => exact absurd rfl hne
      | cons a as => rfl

theorem storage_round_trip_witness :
    ((∀ fmt2 : String,
        write_rows [] [] fmt2 "part-000" = .ok [⟨"part-000", "empty", .emptyMarker⟩] ∧
        read_any [⟨"part-000", "empty", .emptyMarker⟩] = [] ∧
        ([⟨"part-000", "empty", .emptyMarker⟩] : Partition) ≠ []) ∧
     ∃ p, write_rows [[("chain_id", Cell.str "eth2"), ("network", Cell.str "mainnet"),
                       ("height_or_slot", Cell.int 100)]] [] "parquet" "part-000" = .ok p ∧
       read_any p = [[("chain_id", Cell.str "eth2"), ("network", Cell.str "mainnet"),
                      ("height_or_slot", Cell.int 100)]] ∧
       (read_any p).length = 1 ∧
       ∀ kf, (read_any p).map (keyTuple kf)
           = [[("chain_id", Cell.str "eth2"), ("network", Cell.str "mainnet"),
               ("height_or_slot", Cell.int 100)]].map (keyTuple kf)) :=
  storage_round_trip _ "parquet" (by simp) (Or.inl rfl)

/-- Claim C9 counterexample: with zero rows, an unsupported output format
does not raise — `write_rows` takes the empty branch first, writes the
`.empty` marker and returns successfully, so the claim fails for the empty
list. -/
theorem write_rows_empty_bad_format_counterexample :
    write_rows [] [] "json" "part-000" = .ok [⟨"part-000", "empty", .emptyMarker⟩] := rfl

/-- Claim C9 (amended): for every NON-empty list of rows and every format
other than `parquet` or `csv`, `write_rows` raises the `ValueError`
(surfaced to the caller), and no data file is produced; for zero rows the
format is never inspected and the empty marker is written instead. -/
theorem write_rows_bad_format_amended (rows : List Row) (outdir : Partition)
    (fmt filename : String) (hne : rows ≠ []) (hcsv : fmt ≠ "csv") (hpq : fmt ≠ "parquet") :
    write_rows rows outdir fmt filename = .error ("Unsupported output format: " ++ fmt) := by
  cases rows with
  | nil => exact absurd rfl hne
  | cons a as => simp [write_rows, hcsv, hpq]

theorem write_rows_bad_format_amended_witness :
    write_rows [[("chain_id", Cell.str "eth2")]] [] "json" "part-000"
        = .error ("Unsupported output format: " ++ "json") :=
  write_rows_bad_format_amended _ _ _ _ (by simp) (by decide) (by decide)

/-- Claim C1: over any window, with any completion order (window order
sequentially, any permutation of it under the worker pool) and a supported
output format, the block run returns without exception, writes exactly
`K − f` rows (the count equation below: rows plus failed items equals the
window size) with a provenance record whose `rows` field is that same count,
and every successfully fetched item's row is present — one item's failure
never removes a sibling's row. -/
theorem blocks_item_failure_independence
    (fetch : Int → Option Row) (start stop : Int) (order : List Int) (outdir : Partition)
    (fmt source api_version collector chain_id network : String)
    (hperm : order.Perm (windowList start stop))
    (hfmt : fmt = "parquet" ∨ fmt = "csv") :
    ∃ p, blocksRun fetch order outdir fmt source api_version collector chain_id network
        = .ok (p, ⟨source, api_version, collector, chain_id, network, "blocks",
                   (blocksRows fetch order).length, none, none⟩) ∧
      (blocksRows fetch order).length
          + ((windowList start stop).filter (fun h => (fetch h).isNone)).length
        = (windowList start stop).length ∧
      ∀ h ∈ windowList start stop, ∀ r, fetch h = some r → r ∈ blocksRows fetch order := by
  obtain ⟨p0, hp0⟩ := write_rows_ok (blocksRows fetch order) outdir fmt "part-000" hfmt
  refine ⟨write_provenance p0
    ⟨source, api_version, collector, chain_id, network, "blocks",
     (blocksRows fetch order).length, none, none⟩, ?_, ?_, ?_⟩
  · simp [blocksRun, hp0]
  · have hfm := filterMap_length_add_none fetch (windowList start stop)
    have hlen : (blocksRows fetch order).length
        = ((windowList start stop).filterMap fetch).length :=
      (hperm.filterMap fetch).length_eq
    rw [blocksRows] at hlen ⊢
    omega
  · intro h hh r hr
    rw [blocksRows]
    exact List.mem_filterMap.2 ⟨h, hperm.mem_iff.2 hh, hr⟩

theorem blocks_item_failure_independence_witness :
    ∃ p, blocksRun exampleFetch102 (windowList 100 104) [] "parquet"
          "http://localhost:5052" "v2" "eth2.blocks" "eth2" "mainnet"
        = .ok (p, ⟨"http://localhost:5052", "v2", "eth2.blocks", "eth2", "mainnet", "blocks",
                   (blocksRows exampleFetch102 (windowList 100 104)).length, none, none⟩) ∧
      (blocksRows exampleFetch102 (windowList 100 104)).length
          + ((windowList 100 104).filter (fun h => (exampleFetch102 h).isNone)).length
        = (windowList 100 104).length ∧
      ∀ h ∈ windowList 100 104, ∀ r, exampleFetch102 h = some r →
        r ∈ blocksRows exampleFetch102 (windowList 100 104) :=
  blocks_item_failure_independence exampleFetch102 100 104 (windowList 100 104) []
    "parquet" "http://localhost:5052" "v2" "eth2.blocks" "eth2" "mainnet"
    (List.Perm.refl _) (Or.inl rfl)

theorem contains_append_singleton_ne {α : Type} [DecidableEq α] (l : List α) (x d : α)
    (hne : d ≠ x) : (l ++ [x]).contains d = l.contains d := by
  induction l with
  | nil => simp [hne]
  | cons a t ih => simp_all

/-- Claim C8: the polkadot collector is sequential regardless of any
concurrency configuration — `max_workers` is never read by its constructor,
and the block loop consumes the window strictly in ascending order (the
heights of the emitted rows are exactly the successful window items, in
window order, which is strictly increasing) — and a requested
`"attestations"` dataset is silently skipped: it is never dispatched, and
requesting it changes nothing. -/
theorem polkadot_sequential_no_attestations (cfg : String → Option String) (mw : String)
    (ev : Int → Option PolkadotBlockData) (chain_id network : String) (start stop : Int)
    (datasets : List String) :
    polkadot_init (cfgSet cfg "max_workers" mw) = polkadot_init cfg ∧
    (polkadot_blocks_rows ev chain_id network start stop).map (fun r => rowGet r "height_or_slot")
        = ((windowList start stop).filter (fun h => (ev h).isSome)).map Cell.int ∧
    List.Pairwise (· < ·) ((windowList start stop).filter (fun h => (ev h).isSome)) ∧
    "attestations" ∉ processedOf polkadotDatasets datasets ∧
    processedOf polkadotDatasets (datasets ++ ["attestations"])
        = processedOf polkadotDatasets datasets := by
  refine ⟨?_, ?_, ?_, ?_, ?_⟩
  · simp [polkadot_init, cfgSet]
  · rw [polkadot_blocks_rows]
    generalize windowList start stop = l
    induction l with
    | nil => rfl
    | cons h t ih =>
        have hrow : ∀ pd, rowGet (polkadotBlockRow chain_id network h pd) "height_or_slot"
            = Cell.int h := fun pd => rfl
        cases hev : ev h <;>
          simp [List.filterMap_cons, List.filter_cons, hev, ih, hrow]
  · exact List.Pairwise.sublist (List.filter_sublist _) (windowList_pairwise start stop)
  · intro hmem
    have hd := List.mem_of_mem_filter hmem
    simp [polkadotDatasets] at hd
  · rw [processedOf, processedOf]
    refine List.filter_congr ?_
    intro d hd
    simp [polkadotDatasets] at hd
    rcases hd with rfl | rfl | rfl <;>
      exact contains_append_singleton_ne datasets "attestations" _ (by decide)

theorem polkadot_sequential_no_attestations_witness :
    polkadot_init (cfgSet (fun _ => none) "max_workers" "8") = polkadot_init (fun _ => none) ∧
    (polkadot_blocks_rows (fun _ => none) "polkadot" "mainnet" 1 3).map
        (fun r => rowGet r "height_or_slot")
        = ((windowList 1 3).filter
            (fun h => ((fun _ => (none : Option PolkadotBlockData)) h).isSome)).map Cell.int ∧
    List.Pairwise (· < ·)
      ((windowList 1 3).filter
        (fun h => ((fun _ => (none : Option PolkadotBlockData)) h).isSome)) ∧
    "attestations" ∉ processedOf polkadotDatasets ["blocks", "attestations"] ∧
    processedOf polkadotDatasets (["blocks", "attestations"] ++ ["attestations"])
        = processedOf polkadotDatasets ["blocks", "attestations"] :=
  polkadot_sequential_no_attestations (fun _ => none) "8" (fun _ => none)
    "polkadot" "mainnet" 1 3 ["blocks", "attestations"]

theorem single_bound_ignored_witness :
    (eth2_collect 7 ["blocks"] (some 3) none none
        = eth2_collect 7 ["blocks"] none none none ∧
     eth2_collect 7 ["blocks"] none (some 9) none
        = eth2_collect 7 ["blocks"] none none none) ∧
    (cosmos_collect 7 ["blocks"] (some 3) none none
        = cosmos_collect 7 ["blocks"] none none none ∧
     cosmos_collect 7 ["blocks"] none (some 9) none
        = cosmos_collect 7 ["blocks"] none none none) ∧
    (polkadot_collect 7 ["blocks"] (some 3) none none
        = polkadot_collect 7 ["blocks"] none none none ∧
     polkadot_collect 7 ["blocks"] none (some 9) none
        = polkadot_collect 7 ["blocks"] none none none) :=
  single_bound_ignored 7 ["blocks"] none 3 9

/-- Claim C5 counterexample: the resolved default window can be empty and
collection then fails. A cosmos head of 0 (below the chain floor 1) resolves
to `[1, 0]` and raises; an eth2 head of 10 with a negative supplied lookback
of −5 resolves to `[16, 10]` and raises. -/
theorem resolve_head_floor_counterexample :
    cosmos_collect 0 ["blocks"] none none none
        = (true, .error (.invalidRange 1 0)) ∧
    eth2_collect 10 ["blocks"] none none (some (-5))
        = (true, .error (.invalidRange 16 10)) := by
  constructor <;> rfl

theorem pyIntOr_pos (lookback : Option Int) (dflt : Int) (hd : 1 ≤ dflt)
    (hlb : ∀ v, lookback = some v → 0 ≤ v) : 1 ≤ pyIntOr lookback dflt := by
  cases lookback with
  | none => simpa [pyIntOr] using hd
  | some v =>
      have hv := hlb v rfl
      by_cases h0 : v = 0
      · simp [pyIntOr, h0]; omega
      · simp [pyIntOr, h0]; omega

theorem resolveWindow_defaults (minIndex dfltLookback head : Int) (lookback : Option Int)
    (hhead : minIndex ≤ head) (hd : 1 ≤ dfltLookback)
    (hlb : ∀ v, lookback = some v → 0 ≤ v) :
    (resolveWindow minIndex dfltLookback head lookback none none).headQueried = true ∧
    (resolveWindow minIndex dfltLookback head lookback none none).start
      ≤ (resolveWindow minIndex dfltLookback head lookback none none).stop ∧
    (resolveWindow minIndex dfltLookback head lookback none none).stop ≤ head := by
  have hL := pyIntOr_pos lookback dfltLookback hd hlb
  refine ⟨rfl, ?_, le_refl head⟩
  show max minIndex (head - pyIntOr lookback dfltLookback + 1) ≤ head
  exact max_le hhead (by omega)

/-- Claim C5 (amended): when no explicit bounds are supplied, provided the
queried head is at least the chain's minimum index (0 for eth2, 1 for cosmos
and polkadot) and any explicitly supplied lookback is nonnegative, the
resolved window satisfies `start ≤ end`, its upper bound is exactly the head
(so it never exceeds it), the head is queried, and `collect` proceeds to
dispatch without error. Without those provisos the claim fails (see the
counterexample). -/
theorem resolve_window_amended (head : Int) (datasets : List String) (lookback : Option Int)
    (hlb : ∀ v, lookback = some v → 0 ≤ v) :
    (0 ≤ head →
      (resolveWindow 0 512 head lookback none none).headQueried = true ∧
      (resolveWindow 0 512 head lookback none none).start
        ≤ (resolveWindow 0 512 head lookback none none).stop ∧
      (resolveWindow 0 512 head lookback none none).stop ≤ head ∧
      eth2_collect head datasets none none lookback
        = (true, .ok (processedOf restDatasets datasets))) ∧
    (1 ≤ head →
      (resolveWindow 1 2000 head lookback none none).headQueried = true ∧
      (resolveWindow 1 2000 head lookback none none).start
        ≤ (resolveWindow 1 2000 head lookback none none).stop ∧
      (resolveWindow 1 2000 head lookback none none).stop ≤ head ∧
      cosmos_collect head datasets none none lookback
        = (true, .ok (processedOf restDatasets datasets))) ∧
    (1 ≤ head →
      (resolveWindow 1 1024 head lookback none none).headQueried = true ∧
      (resolveWindow 1 1024 head lookback none none).start
        ≤ (resolveWindow 1 1024 head lookback none none).stop ∧
      (resolveWindow 1 1024 head lookback none none).stop ≤ head ∧
      polkadot_collect head datasets none none lookback
        = (true, .ok (processedOf polkadotDatasets datasets))) := by
  refine ⟨fun hh => ?_, fun hh => ?_, fun hh => ?_⟩
  · obtain ⟨h1, h2, h3⟩ := resolveWindow_defaults 0 512 head lookback hh (by norm_num) hlb
    refine ⟨h1, h2, h3, ?_⟩
    simp [eth2_collect, collectRun, not_lt.2 h2, h1]
  · obtain ⟨h1, h2, h3⟩ := resolveWindow_defaults 1 2000 head lookback hh (by norm_num) hlb
    refine ⟨h1, h2, h3, ?_⟩
    simp [cosmos_collect, collectRun, not_lt.2 h2, h1]
  · obtain ⟨h1, h2, h3⟩ := resolveWindow_defaults 1 1024 head lookback hh (by norm_num) hlb
    refine ⟨h1, h2, h3, ?_⟩
    simp [polkadot_collect, collectRun, not_lt.2 h2, h1]

theorem curateTable_core (cols : List String) (raw : List Row) :
    (curateTable cols raw).Nodup ∧
    (∀ r ∈ curateTable cols raw, r.map Prod.fst = cols) ∧
    (∀ r ∈ raw, projectRow cols r ∈ curateTable cols raw) ∧
    (∀ r ∈ curateTable cols raw, ∃ s, s ∈ raw ∧ r = projectRow cols s) := by
  refine ⟨nodup_drop_duplicates _, ?_, ?_, ?_⟩
  · intro r hr
    obtain ⟨s, hs, rfl⟩ := List.mem_map.1 ((mem_drop_duplicates _ _).1 hr)
    exact projectRow_keys cols s
  · intro r hr
    exact (mem_drop_duplicates _ _).2 (List.mem_map_of_mem _ hr)
  · intro r hr
    obtain ⟨s, hs, rfl⟩ := List.mem_map.1 ((mem_drop_duplicates _ _).1 hr)
    exact ⟨s, hs, rfl⟩

theorem mem_curate_cases (root chain_id network date : String)
    (rb rv ra rp : List Row) (e : PartKey × List Row)
    (he : e ∈ curate root chain_id network date rb rv ra rp) :
    (rb ≠ [] ∧ e.1 = part_path root "curated" "block_core" chain_id network date) ∨
    (rv ≠ [] ∧ e.1 = part_path root "curated" "validator_core" chain_id network date) ∨
    (ra ≠ [] ∧ e.1 = part_path root "curated" "attestation_core" chain_id network date) ∨
    (rp ≠ [] ∧ e.1 = part_path root "curated" "penalty_core" chain_id network date) := by
  unfold curate at he
  have hne : ∀ (l : List Row), ¬(l.isEmpty = true) → l ≠ [] := by
    intro l h hl
    exact h (by rw [hl]; rfl)
  rcases List.mem_append.1 he with h | h
  · rcases List.mem_append.1 h with h | h
    · rcases List.mem_append.1 h with h | h
      · split at h
        · simp at h
        · next hc => exact Or.inl ⟨hne _ hc, by rcases List.mem_singleton.1 h with rfl; rfl⟩
      · split at h
        · simp at h
        · next hc =>
            exact Or.inr (Or.inl ⟨hne _ hc, by rcases List.mem_singleton.1 h with rfl; rfl⟩)
    · split at h
      · simp at h
      · next hc =>
          exact Or.inr (Or.inr (Or.inl ⟨hne _ hc, by rcases List.mem_singleton.1 h with rfl; rfl⟩))
  · split at h
    · simp at h
    · next hc =>
        exact Or.inr (Or.inr (Or.inr ⟨hne _ hc, by rcases List.mem_singleton.1 h with rfl; rfl⟩))

/-- Claim C7: `Curator.curate` projects each non-empty raw table onto its
fixed canonical curated column set (every curated row carries exactly those
columns, with the null sentinel wherever the source record lacked the
column — the projection lemma in the last conjunct), drops exact-duplicate
rows, and writes under the curated layer with the same
`(chain_id, network, date)` partition key; an empty/absent raw table
produces no curated write for that table and no error occurs. -/
theorem curate_projection (root chain_id network date : String)
    (rawBlocks rawVals rawAtts rawPen : List Row) :
    curatedTableSpec (curate root chain_id network date rawBlocks rawVals rawAtts rawPen)
        root chain_id network date "block_core" blockCoreCols rawBlocks ∧
    curatedTableSpec (curate root chain_id network date rawBlocks rawVals rawAtts rawPen)
        root chain_id network date "validator_core" validatorCoreCols rawVals ∧
    curatedTableSpec (curate root chain_id network date rawBlocks rawVals rawAtts rawPen)
        root chain_id network date "attestation_core" attestationCoreCols rawAtts ∧
    curatedTableSpec (curate root chain_id network date rawBlocks rawVals rawAtts rawPen)
        root chain_id network date "penalty_core" penaltyCoreCols rawPen ∧
    (∀ (cols : List String) (r : Row) (c : String), c ∈ cols →
      rowGet (projectRow cols r) c = rowGet r c) := by
  refine ⟨⟨?_, ?_⟩, ⟨?_, ?_⟩, ⟨?_, ?_⟩, ⟨?_, ?_⟩, fun cols r c hc => rowGet_projectRow cols r c hc⟩
  · intro hraw e he
    rcases mem_curate_cases root chain_id network date _ _ _ _ e he with
      ⟨hne, _⟩ | ⟨_, hk⟩ | ⟨_, hk⟩ | ⟨_, hk⟩
    · exact absurd hraw hne
    all_goals rw [hk]; simp [part_path]
  · intro hraw
    obtain ⟨hnd, hkeys, hfwd, hbwd⟩ := curateTable_core blockCoreCols rawBlocks
    refine ⟨?_, hnd, hkeys, hfwd, hbwd⟩
    unfold curate
    have hite : (if rawBlocks.isEmpty then ([] : List (PartKey × List Row))
        else [(part_path root "curated" "block_core" chain_id network date,
               curateTable blockCoreCols rawBlocks)])
        = [(part_path root "curated" "block_core" chain_id network date,
            curateTable blockCoreCols rawBlocks)] := by
      cases rawBlocks with
      | nil => exact absurd rfl hraw
      | cons a t => rfl
    rw [hite]
    simp [List.mem_append]
  · intro hraw e he
    rcases mem_curate_cases root chain_id network date _ _ _ _ e he with
      ⟨_, hk⟩ | ⟨hne, _⟩ | ⟨_, hk⟩ | ⟨_, hk⟩
    · rw [hk]; simp [part_path]
    · exact absurd hraw hne
    all_goals rw [hk]; simp [part_path]
  · intro hraw
    obtain ⟨hnd, hkeys, hfwd, hbwd⟩ := curateTable_core validatorCoreCols rawVals
    refine ⟨?_, hnd, hkeys, hfwd, hbwd⟩
    unfold curate
    have hite : (if rawVals.isEmpty then ([] : List (PartKey × List Row))
        else [(part_path root "curated" "validator_core" chain_id network date,
               curateTable validatorCoreCols rawVals)])
        = [(part_path root "curated" "validator_core" chain_id network date,
            curateTable validatorCoreCols rawVals)] := by
      cases rawVals with
      | nil => exact absurd rfl hraw
      | cons a t => rfl
    rw [hite]
    simp [List.mem_append]
  · intro hraw e he
    rcases mem_curate_cases root chain_id network date _ _ _ _ e he with
      ⟨_, hk⟩ | ⟨_, hk⟩ | ⟨hne, _⟩ | ⟨_, hk⟩
    · rw [hk]; simp [part_path]
    · rw [hk]; simp [part_path]
    · exact absurd hraw hne
    · rw [hk]; simp [part_path]
  · intro hraw
    obtain ⟨hnd, hkeys, hfwd, hbwd⟩ := curateTable_core attestationCoreCols rawAtts
    refine ⟨?_, hnd, hkeys, hfwd, hbwd⟩
    unfold curate
    have hite : (if rawAtts.isEmpty then ([] : List (PartKey × List Row))
        else [(part_path root "curated" "attestation_core" chain_id network date,
               curateTable attestationCoreCols rawAtts)])
        = [(part_path root "curated" "attestation_core" chain_id network date,
            curateTable attestationCoreCols rawAtts)] := by
      cases rawAtts with
      | nil => exact absurd rfl hraw
      | cons a t => rfl
    rw [hite]
    simp [List.mem_append]
  · intro hraw e he
    rcases mem_curate_cases root chain_id network date _ _ _ _ e he with
      ⟨_, hk⟩ | ⟨_, hk⟩ | ⟨_, hk⟩ | ⟨hne, _⟩
    · rw [hk]; simp [part_path]
    · rw [hk]; simp [part_path]
    · rw [hk]; simp [part_path]
    · exact absurd hraw hne
  · intro hraw
    obtain ⟨hnd, hkeys, hfwd, hbwd⟩ := curateTable_core penaltyCoreCols rawPen
    refine ⟨?_, hnd, hkeys, hfwd, hbwd⟩
    unfold curate
    have hite : (if rawPen.isEmpty then ([] : List (PartKey × List Row))
        else [(part_path root "curated" "penalty_core" chain_id network date,
               curateTable penaltyCoreCols rawPen)])
        = [(part_path root "curated" "penalty_core" chain_id network date,
            curateTable penaltyCoreCols rawPen)] := by
      cases rawPen with
      | nil => exact absurd rfl hraw
      | cons a t => rfl
    rw [hite]
    simp [List.mem_append]

theorem curate_projection_witness :
    (part_path "data" "curated" "block_core" "eth2" "mainnet" "2024-01-01",
     curateTable blockCoreCols [[("chain_id", Cell.str "eth2")]])
      ∈ curate "data" "eth2" "mainnet" "2024-01-01" [[("chain_id", Cell.str "eth2")]] [] [] [] ∧
    (curateTable blockCoreCols [[("chain_id", Cell.str "eth2")]]).Nodup ∧
    (∀ r ∈ curateTable blockCoreCols [[("chain_id", Cell.str "eth2")]],
      r.map Prod.fst = blockCoreCols) ∧
    (∀ r ∈ [[("chain_id", Cell.str "eth2")]],
      projectRow blockCoreCols r ∈ curateTable blockCoreCols [[("chain_id", Cell.str "eth2")]]) ∧
    (∀ r ∈ curateTable blockCoreCols [[("chain_id", Cell.str "eth2")]],
      ∃ s, s ∈ [[("chain_id", Cell.str "eth2")]] ∧ r = projectRow blockCoreCols s) :=
  (curate_projection "data" "eth2" "mainnet" "2024-01-01"
    [[("chain_id", Cell.str "eth2")]] [] [] []).1.2 (by simp)

/-- Claim C6 counterexample: a curated penalty row whose `validator_id`
matches but whose `penalty_type` is the null sentinel is NOT counted
(pandas `count` ignores NA values), so `penalty_count_v0` is 0 although
exactly one penalty row's `validator_id` matches. -/
theorem trust_null_penalty_type_counterexample :
    build_trust_signals_daily (fun _ => none) "eth2" "mainnet" "2024-01-01"
        [[("validator_id", Cell.str "v1"), ("effective_balance", Cell.num 32)]]
        [[("validator_id", Cell.str "v1"), ("penalty_type", Cell.null)]]
      = .ok [[("chain_id", Cell.str "eth2"), ("network", Cell.str "mainnet"),
              ("date", Cell.str "2024-01-01"), ("validator_id", Cell.str "v1"),
              ("trust_score_v0", Cell.num 32), ("penalty_count_v0", Cell.int 0)]] ∧
    (([[("validator_id", Cell.str "v1"), ("penalty_type", Cell.null)]] : List Row).filter
        (fun r => decide (rowGet r "validator_id" = Cell.str "v1"))).length = 1 := by
  constructor <;> rfl

theorem rowGet_eq_null_of_no_key (r : Row) (c : String)
    (h : r.any (fun kv => kv.1 == c) = false) : rowGet r c = .null := by
  induction r with
  | nil => rfl
  | cons kv rest ih =>
      cases kv with
      | mk k v =>
          simp [List.any_cons] at h
          rw [rowGet, if_neg h.1]
          exact ih (by simpa using h.2)

theorem slash_counts_get_eq (pc : List Row) (vid : Cell) (hvid : vid ≠ Cell.null) :
    slash_counts_get pc vid = penaltyTypeCount pc vid := by
  rw [slash_counts_get]
  split
  · next hcond =>
      rcases hcond with hpc | hcol | hnull
      · rw [hpc]; rfl
      · symm
        rw [penaltyTypeCount, List.length_eq_zero, List.filter_eq_nil_iff]
        intro r hr
        rw [hasColumn] at hcol
        have hany := (List.any_eq_false.1 hcol) r hr
        have hany2 : (r.any fun kv => kv.1 == "validator_id") = false := by
          cases h2 : r.any fun kv => kv.1 == "validator_id"
          · rfl
          · exact absurd h2 hany
        have hnul : rowGet r "validator_id" = Cell.null :=
          rowGet_eq_null_of_no_key r "validator_id" hany2
        simp [hnul]
        intro heq
        exact absurd heq.symm hvid
      · exact absurd hnull hvid
  · rfl

theorem trust_score_numCopy (pyFloatStr : String → Option ℚ) (c : Cell)
    (hc : cellNumOrNull c = true) :
    trust_score_v0 pyFloatStr c = .ok (numCopy c) := by
  cases c with
  | null => rfl
  | int n =>
      rw [trust_score_v0, numCopy]
      by_cases h : n = 0
      · subst h; norm_num
      · rw [if_neg h]
  | num q =>
      rw [trust_score_v0, numCopy]
      by_cases h : q = 0
      · subst h; norm_num
      · rw [if_neg h]
  | str s => simp [cellNumOrNull] at hc

theorem buildTrustRows_map (pyFloatStr : String → Option ℚ) (chain_id network date : String)
    (pc : List Row) :
    ∀ vc : List Row, (∀ r ∈ vc, cellNumOrNull (rowGet r "effective_balance") = true) →
      buildTrustRows pyFloatStr chain_id network date pc vc
        = .ok (vc.map (trustOutRow chain_id network date pc)) := by
  intro vc
  induction vc with
  | nil => intro _; rfl
  | cons r rest ih =>
      intro hall
      rw [buildTrustRows,
        trust_score_numCopy pyFloatStr _ (hall r (List.mem_cons_self _ _)),
        ih (fun x hx => hall x (List.mem_cons_of_mem _ hx))]
      rfl

/-- Claim C6 (amended): for curated tables whose `effective_balance` cells
are numeric or null (as the pipeline writes them), the build succeeds with
exactly one output row per validator row; `trust_score_v0` is the direct
(float) copy of that row's `effective_balance`; `penalty_count_v0` is the
number of penalty rows whose `validator_id` matches AND whose `penalty_type`
is non-null (pandas `count` ignores nulls — see the counterexample), in
particular 0, not an absent row, for a validator with no matching penalty
rows. -/
theorem trust_signals_amended (pyFloatStr : String → Option ℚ)
    (chain_id network date : String) (vc pc : List Row)
    (heff : ∀ r ∈ vc, cellNumOrNull (rowGet r "effective_balance") = true) :
    build_trust_signals_daily pyFloatStr chain_id network date vc pc
        = .ok (vc.map (trustOutRow chain_id network date pc)) ∧
    (vc.map (trustOutRow chain_id network date pc)).length = vc.length ∧
    (∀ r ∈ vc,
      rowGet (trustOutRow chain_id network date pc r) "trust_score_v0"
          = numCopy (rowGet r "effective_balance") ∧
      rowGet (trustOutRow chain_id network date pc r) "validator_id"
          = rowGet r "validator_id" ∧
      rowGet (trustOutRow chain_id network date pc r) "penalty_count_v0"
          = Cell.int (slash_counts_get pc (rowGet r "validator_id")) ∧
      (rowGet r "validator_id" ≠ Cell.null →
        slash_counts_get pc (rowGet r "validator_id")
          = penaltyTypeCount pc (rowGet r "validator_id"))) := by
  refine ⟨?_, by simp, ?_⟩
  · cases vc with
    | nil => rfl
    | cons r rest =>
        rw [build_trust_signals_daily]
        have hte : (r :: rest).isEmpty = false := rfl
        rw [hte]
        exact buildTrustRows_map pyFloatStr chain_id network date pc (r :: rest) heff
  · intro r hr
    exact ⟨rfl, rfl, rfl, fun hvid => slash_counts_get_eq pc _ hvid⟩

theorem trust_signals_amended_witness :
    build_trust_signals_daily (fun _ => none) "eth2" "mainnet" "2024-01-01"
        [[("validator_id", Cell.str "v1"), ("effective_balance", Cell.num 32)]]
        [[("validator_id", Cell.str "v1"), ("penalty_type", Cell.str "proposer_slashing")],
         [("validator_id", Cell.str "v1"), ("penalty_type", Cell.str "attester_slashing")],
         [("validator_id", Cell.str "v1"), ("penalty_type", Cell.str "attester_slashing")]]
      = .ok ([[("validator_id", Cell.str "v1"), ("effective_balance", Cell.num 32)]].map
          (trustOutRow "eth2" "mainnet" "2024-01-01"
            [[("validator_id", Cell.str "v1"), ("penalty_type", Cell.str "proposer_slashing")],
             [("validator_id", Cell.str "v1"), ("penalty_type", Cell.str "attester_slashing")],
             [("validator_id", Cell.str "v1"), ("penalty_type", Cell.str "attester_slashing")]])) ∧
    trustOutRow "eth2" "mainnet" "2024-01-01"
        [[("validator_id", Cell.str "v1"), ("penalty_type", Cell.str "proposer_slashing")],
         [("validator_id", Cell.str "v1"), ("penalty_type", Cell.str "attester_slashing")],
         [("validator_id", Cell.str "v1"), ("penalty_type", Cell.str "attester_slashing")]]
        [("validator_id", Cell.str "v1"), ("effective_balance", Cell.num 32)]
      = [("chain_id", Cell.str "eth2"), ("network", Cell.str "mainnet"),
         ("date", Cell.str "2024-01-01"), ("validator_id", Cell.str "v1"),
         ("trust_score_v0", Cell.num 32), ("penalty_count_v0", Cell.int 3)] := by
  constructor
  · exact (trust_signals_amended (fun _ => none) "eth2" "mainnet" "2024-01-01"
      [[("validator_id", Cell.str "v1"), ("effective_balance", Cell.num 32)]]
      [[("validator_id", Cell.str "v1"), ("penalty_type", Cell.str "proposer_slashing")],
       [("validator_id", Cell.str "v1"), ("penalty_type", Cell.str "attester_slashing")],
       [("validator_id", Cell.str "v1"), ("penalty_type", Cell.str "attester_slashing")]]
      (by decide)).1
  · rfl

theorem get_json_go_attempts_le {ε α : Type} (attemptRes : Nat → Except ε α) (jit : Nat → ℚ) :
    ∀ (n i : Nat) (delay : ℚ) (sleeps : List ℚ), 5 - i = n → i < 5 →
      (get_json_go attemptRes jit i delay sleeps).2.2 ≤ 5 := by
  intro n
  induction n with
  | zero => intro i delay sleeps hn hi; omega
  | succ n ih =>
      intro i delay sleeps hn hi
      rw [get_json_go.eq_def]
      cases hres : attemptRes i with
      | ok v => simp; omega
      | error e =>
          by_cases h5 : 5 ≤ i + 1
          · simp [h5]
            omega
          · simp [h5]
            exact ih (i + 1) _ _ (by omega) (by omega)

/-- Claim C4: `get_json` makes at most 5 attempts on any outcome sequence;
when every attempt fails it performs exactly the four sleeps
`delay + uniform(0, delay)` for delays 0.5, 1, 2, 4 (exponentially doubling
from base 0.5), each sleep is at most 8 seconds, and the final result
re-raises the last (fifth) exception unchanged. -/
theorem get_json_retry_backoff {ε α : Type} (attemptRes : Nat → Except ε α) (jit : Nat → ℚ)
    (errs : Nat → ε) (hjit : ∀ i, 0 ≤ jit i ∧ jit i ≤ 1) :
    (get_json attemptRes jit).2.2 ≤ 5 ∧
    ((∀ i, attemptRes i = .error (errs i)) →
      get_json attemptRes jit
          = (.error (errs 4),
             [1 / 2 + jit 0 * (1 / 2), 1 + jit 1 * 1, 2 + jit 2 * 2, 4 + jit 3 * 4], 5) ∧
      ∀ s ∈ (get_json attemptRes jit).2.1, s ≤ 8) := by
  constructor
  · exact get_json_go_attempts_le attemptRes jit 5 0 (1 / 2) [] rfl (by omega)
  · intro herr
    have hrun : get_json attemptRes jit
        = (.error (errs 4),
           [1 / 2 + jit 0 * (1 / 2), 1 + jit 1 * 1, 2 + jit 2 * 2, 4 + jit 3 * 4], 5) := by
      rw [get_json]
      rw [get_json_go.eq_def, herr 0]
      norm_num
      rw [get_json_go.eq_def, herr 1]
      norm_num
      rw [get_json_go.eq_def, herr 2]
      norm_num
      rw [get_json_go.eq_def, herr 3]
      norm_num
      rw [get_json_go.eq_def, herr 4]
      norm_num
    refine ⟨hrun, ?_⟩
    rw [hrun]
    intro s hs
    simp at hs
    rcases hs with rfl | rfl | rfl | rfl
    · have h0 := (hjit 0).1; have h1 := (hjit 0).2; nlinarith
    · have h0 := (hjit 1).1; have h1 := (hjit 1).2; nlinarith
    · have h0 := (hjit 2).1; have h1 := (hjit 2).2; nlinarith
    · have h0 := (hjit 3).1; have h1 := (hjit 3).2; nlinarith

theorem get_json_retry_backoff_witness :
    ((get_json (fun i => (.error i : Except Nat Nat)) (fun _ => 0)).2.2 ≤ 5) ∧
    (get_json (fun i => (.error i : Except Nat Nat)) (fun _ => 0)
        = (.error 4, [1 / 2 + (0 : ℚ) * (1 / 2), 1 + 0 * 1, 2 + 0 * 2, 4 + 0 * 4], 5) ∧
     ∀ s ∈ (get_json (fun i => (.error i : Except Nat Nat)) (fun _ => 0)).2.1, s ≤ 8) := by
  have h := get_json_retry_backoff (fun i => (.error i : Except Nat Nat)) (fun _ => (0 : ℚ))
    (fun i => i) (fun i => by norm_num)
  exact ⟨h.1, h.2 (fun i => rfl)⟩

theorem resolve_window_amended_witness :
    ((0 : Int) ≤ 5 →
      (resolveWindow 0 512 5 none none none).headQueried = true ∧
      (resolveWindow 0 512 5 none none none).start
        ≤ (resolveWindow 0 512 5 none none none).stop ∧
      (resolveWindow 0 512 5 none none none).stop ≤ 5 ∧
      eth2_collect 5 ["blocks"] none none none
        = (true, .ok (processedOf restDatasets ["blocks"]))) ∧
    ((1 : Int) ≤ 5 →
      (resolveWindow 1 2000 5 none none none).headQueried = true ∧
      (resolveWindow 1 2000 5 none none none).start
        ≤ (resolveWindow 1 2000 5 none none none).stop ∧
      (resolveWindow 1 2000 5 none none none).stop ≤ 5 ∧
      cosmos_collect 5 ["blocks"] none none none
        = (true, .ok (processedOf restDatasets ["blocks"]))) ∧
    ((1 : Int) ≤ 5 →
      (resolveWindow 1 1024 5 none none none).headQueried = true ∧
      (resolveWindow 1 1024 5 none none none).start
        ≤ (resolveWindow 1 1024 5 none none none).stop ∧
      (resolveWindow 1 1024 5 none none none).stop ≤ 5 ∧
      polkadot_collect 5 ["blocks"] none none none
        = (true, .ok (processedOf polkadotDatasets ["blocks"]))) :=
  resolve_window_amended 5 ["blocks"] none (fun v h => by cases h)

end Aibyz
